import Mathlib

/-!
Verification of the server-authoritative Pomodoro timer and scoring engine.

This file is a shallow embedding, in Lean 4, of the timer state machine of
`pomodoro_app`: the multiplier/streak logic of `pomodoro_app/main/logic.py`
and the timer API operations of `pomodoro_app/main/api_routes.py`, together
with the data model of `pomodoro_app/models.py`.

Modelling conventions:
- Instants are integers (seconds since the UTC epoch); calendar dates are
  integers (days since the epoch), with `dateOf` the floor day of an instant,
  matching Python's `.date()` on a UTC-aware datetime.
- Python floats are modelled as exact rationals.  Every multiplier constant in
  the source is a decimal tenth, so accumulated binary floating-point error is
  below 5e-3 and `round(x, 2)` yields the same value on floats as on the exact
  rationals modelled here.
- Python's `round` (banker's rounding, half to even) is modelled by `pyRound`.
- The database is modelled as explicit state (`ServerState`): one user row,
  at most one active-timer row, and the append-only session ledger.  Each API
  handler is a pure function from request data and state to (response, state);
  the state it returns is the state committed by the handler's single
  `db.session.commit()`.
-/

namespace Pomodoro

/-- Python `round` with no digits argument: round half to even, as an exact
operation on rationals. -/
def pyRound (q : ℚ) : ℤ :=
  let f : ℤ := ⌊q⌋
  let frac : ℚ := q - (f : ℚ)
  if frac < 1/2 then f
  else if 1/2 < frac then f + 1
  else if f % 2 = 0 then f else f + 1

/-- Python `round(x, 2)`: round half to even at two decimal places. -/
def pyRound2 (q : ℚ) : ℚ := (pyRound (q * 100) : ℚ) / 100

/-- UTC calendar day of an instant, as used by `datetime.date()` and by the
midnight truncation `datetime.now(utc).replace(hour=0, ...)`. -/
def dateOf (t : ℤ) : ℤ := Int.fdiv t 86400

/-- `models.User`, restricted to the gamification state the core mutates
(identity columns are external).  Timestamps stored in the database are
already normalized to UTC in this model. -/
structure User where
  total_points : ℤ
  consecutive_sessions : ℤ
  last_session_timestamp : Option ℤ
  daily_streak : ℤ
  last_active_date : Option ℤ
deriving DecidableEq, Repr

/-- `models.PomodoroSession`: one append-only ledger row (the `user_id`
foreign key is implicit: the model tracks a single user's state). -/
structure PomodoroSession where
  work_duration : ℤ
  break_duration : ℤ
  points_earned : ℤ
  timestamp : ℤ
deriving DecidableEq, Repr

/-- `models.ActiveTimerState`: the single in-flight timer row of a user.

`end_time` is `Option` because `api_routes.py` defensively checks
`end_time is None` and treats it as corrupt state.

`pause_start_time` — Modelled from the spec: the pause-started-at column of
`ActiveTimerState` is missing from `src/pomodoro_app/models.py` (the file is
visibly truncated around this class), while `api_routes.py` reads and writes
`active_state.pause_start_time` as a persisted attribute.  Per the spec it is
an "optional pause-started-at instant (null when running)". -/
structure ActiveTimerState where
  phase : String
  start_time : ℤ
  end_time : Option ℤ
  work_duration_minutes : ℤ
  break_duration_minutes : ℤ
  current_multiplier : ℚ
  pause_start_time : Option ℤ
deriving DecidableEq, Repr

/-- The per-user slice of the database that the timer engine reads and
writes: the user row, the optional active-timer row, and the session ledger. -/
structure ServerState where
  user : User
  timer : Option ActiveTimerState
  sessions : List PomodoroSession
deriving DecidableEq, Repr

/-- One entry of `logic.MULTIPLIER_RULES`. -/
structure MultiplierRule where
  id : String
  condition : String
  bonus : ℚ
  details : String
deriving DecidableEq, Repr

/-- `logic.MULTIPLIER_RULES`, in source order. -/
def MULTIPLIER_RULES : List MultiplierRule := [
  { id := "base",          condition := "Base Rate (Work)",        bonus := 0.0, details := "Active during focused work." },
  { id := "focus25",       condition := "Work Block > 25 Min",     bonus := 0.1, details := "Complete >25 mins in one work session." },
  { id := "focus45",       condition := "Work Block > 45 Min",     bonus := 0.2, details := "Complete >45 mins in one work session." },
  { id := "consecutive3",  condition := "3+ Consecutive Sessions", bonus := 0.1, details := "Complete 3+ work/break cycles." },
  { id := "consecutive5",  condition := "5+ Consecutive Sessions", bonus := 0.2, details := "Complete 5+ work/break cycles." },
  { id := "daily3",        condition := "3+ Day Usage Streak",     bonus := 0.1, details := "Use timer 3+ days running." },
  { id := "daily7",        condition := "7+ Day Usage Streak",     bonus := 0.2, details := "Use timer 7+ days running." },
  { id := "focus60",       condition := "Work Block > 60 Min",     bonus := 0.3, details := "Complete >60 mins in one work session." },
  { id := "focus90",       condition := "Work Block > 90 Min",     bonus := 0.5, details := "Complete >90 mins in one work session." },
  { id := "consecutive10", condition := "10+ Consecutive Sessions", bonus := 0.3, details := "Complete 10+ work/break cycles." },
  { id := "consecutive20", condition := "20+ Consecutive Sessions", bonus := 0.5, details := "Complete 20+ work/break cycles." },
  { id := "daily14",       condition := "14+ Day Usage Streak",    bonus := 0.3, details := "Use timer 14+ days running." },
  { id := "daily30",       condition := "30+ Day Usage Streak",    bonus := 0.5, details := "Use timer 30+ days running." },
  { id := "dailyFocus120", condition := "120+ Min Focus Today",    bonus := 0.1, details := "Accumulate 120+ focus mins in one day." },
  { id := "balancedBreak", condition := "Breaks <=20% of Work",    bonus := 0.1, details := "Plan breaks under 20% of work time." }]

/-- Bonus of a rule id, looked up in `MULTIPLIER_RULES` (0 when absent). -/
def rule_bonus (rid : String) : ℚ :=
  match MULTIPLIER_RULES.find? (fun r => r.id == rid) with
  | some r => r.bonus
  | none => 0

/-- Sum of `PomodoroSession.work_duration` over the user's ledger rows whose
timestamp is at or after today's UTC midnight: the `today_focus` database
query shared by `calculate_current_multiplier` and
`get_active_multiplier_rules` in `logic.py`. -/
def todays_focus (sessions : List PomodoroSession) (now_utc : ℤ) : ℤ :=
  ((sessions.filter (fun ses => dateOf now_utc * 86400 ≤ ses.timestamp)).map
    (fun ses => ses.work_duration)).sum

/-- `logic.calculate_current_multiplier`: fully additive multiplier.
The `today_focus` argument stands for the session-ledger query the Python
function performs itself (threaded explicitly here); the `if not user` null
guard is vacuous in this embedding, where a user row is always present.
`BALANCED_BREAK_RATIO = 0.2` and `DAILY_FOCUS_TARGET = 120` are inlined. -/
def calculate_current_multiplier (user : User)
    (work_duration_this_session break_duration_this_session : ℤ)
    (today_focus : ℤ) : ℚ :=
  let total_bonus : ℚ :=
    (if work_duration_this_session > 25 then 0.1 else 0)
    + (if work_duration_this_session > 45 then 0.2 else 0)
    + (if work_duration_this_session > 60 then 0.3 else 0)
    + (if work_duration_this_session > 90 then 0.5 else 0)
    + (if work_duration_this_session > 0 ∧ break_duration_this_session > 0 ∧
          (break_duration_this_session : ℚ) / (work_duration_this_session : ℚ) ≤ 0.2
       then 0.1 else 0)
    + (if user.consecutive_sessions ≥ 3 then 0.1 else 0)
    + (if user.consecutive_sessions ≥ 5 then 0.2 else 0)
    + (if user.consecutive_sessions ≥ 10 then 0.3 else 0)
    + (if user.consecutive_sessions ≥ 20 then 0.5 else 0)
    + (if user.daily_streak ≥ 3 then 0.1 else 0)
    + (if user.daily_streak ≥ 7 then 0.2 else 0)
    + (if user.daily_streak ≥ 14 then 0.3 else 0)
    + (if user.daily_streak ≥ 30 then 0.5 else 0)
    + (if today_focus ≥ 120 then 0.1 else 0)
  pyRound2 (1.0 + total_bonus)

/-- `logic.get_active_multiplier_rules`: ids of all currently satisfied rules
(the Python set is modelled as a duplicate-free list, built in source order). -/
def get_active_multiplier_rules (user : User)
    (work_duration_this_session break_duration_this_session : ℤ)
    (today_focus : ℤ) : List String :=
  ["base"]
  ++ (if work_duration_this_session > 25 then ["focus25"] else [])
  ++ (if work_duration_this_session > 45 then ["focus45"] else [])
  ++ (if work_duration_this_session > 60 then ["focus60"] else [])
  ++ (if work_duration_this_session > 90 then ["focus90"] else [])
  ++ (if work_duration_this_session > 0 ∧ break_duration_this_session > 0 ∧
        (break_duration_this_session : ℚ) / (work_duration_this_session : ℚ) ≤ 0.2
      then ["balancedBreak"] else [])
  ++ (if user.consecutive_sessions ≥ 3 then ["consecutive3"] else [])
  ++ (if user.consecutive_sessions ≥ 5 then ["consecutive5"] else [])
  ++ (if user.consecutive_sessions ≥ 10 then ["consecutive10"] else [])
  ++ (if user.consecutive_sessions ≥ 20 then ["consecutive20"] else [])
  ++ (if user.daily_streak ≥ 3 then ["daily3"] else [])
  ++ (if user.daily_streak ≥ 7 then ["daily7"] else [])
  ++ (if user.daily_streak ≥ 14 then ["daily14"] else [])
  ++ (if user.daily_streak ≥ 30 then ["daily30"] else [])
  ++ (if today_focus ≥ 120 then ["dailyFocus120"] else [])

/-- `logic.update_streaks`: daily and consistency streak bookkeeping, invoked
on work-phase completion.  `MAX_CONSISTENCY_GAP_HOURS = 2` is inlined as the
seconds bound `60 * 60 * 2`; stored timestamps are already UTC here, so the
naive-datetime normalization of the source is the identity. -/
def update_streaks (user : User) (now_utc : ℤ) : User :=
  let today_utc := dateOf now_utc
  let user1 :=
    if user.last_active_date ≠ some today_utc then
      let user2 :=
        match user.last_active_date with
        | some last_active =>
          let days_diff := today_utc - last_active
          if days_diff = 1 then { user with daily_streak := user.daily_streak + 1 }
          else if days_diff > 1 then { user with daily_streak := 1 }
          else user
        | none => { user with daily_streak := 1 }
      { user2 with last_active_date := some today_utc }
    else user
  let user3 :=
    match user1.last_session_timestamp with
    | some last_ts =>
      if now_utc - last_ts ≤ 60 * 60 * 2 then
        { user1 with consecutive_sessions := user1.consecutive_sessions + 1 }
      else
        { user1 with consecutive_sessions := 1 }
    | none => { user1 with consecutive_sessions := 1 }
  { user3 with last_session_timestamp := some now_utc }

/-- Points of one completed phase, as computed inline in
`api_complete_phase`: `int(round(duration * points_per_minute * multiplier))`
when `points_per_minute` is a number `>= 0`, else 0 (invalid configuration is
logged and treated as zero points).  `none` stands for a non-numeric
`POINTS_PER_MINUTE` configuration value. -/
def phase_points (planned_duration : ℤ) (points_per_minute : Option ℚ)
    (multiplier : ℚ) : ℤ :=
  match points_per_minute with
  | some ppm => if 0 ≤ ppm then pyRound ((planned_duration : ℚ) * ppm * multiplier) else 0
  | none => 0

/-- Response of `api_start_timer`. -/
inductive StartResult where
  | invalid_input
  | timer_started (total_points : ℤ) (active_multiplier : ℚ) (end_time : ℤ)
deriving DecidableEq, Repr

/-- Response of `api_complete_phase` (HTTP codes: `acknowledged_no_state`,
`break_started`, `work_started` are 200; `too_early` and `invalid_phase` are
400; `inconsistent_state` is 500). -/
inductive CompleteResult where
  | acknowledged_no_state (total_points : ℤ)
  | inconsistent_state (total_points : ℤ)
  | too_early (remaining_seconds : ℤ) (total_points : ℤ)
  | invalid_phase (total_points : ℤ)
  | break_started (total_points : ℤ) (active_multiplier : ℚ) (end_time : ℤ)
  | work_started (total_points : ℤ) (active_multiplier : ℚ) (end_time : ℤ)
deriving DecidableEq, Repr

/-- Response of `api_pause_timer` (`no_active_state` is 404). -/
inductive PauseResult where
  | no_active_state
  | pause_recorded
deriving DecidableEq, Repr

/-- Response of `api_resume_timer` (`no_active_state` is 404,
`inconsistent_state` is 500, the others 200). -/
inductive ResumeResult where
  | no_active_state
  | inconsistent_state
  | resume_no_pause_found (new_end_time : ℤ)
  | resume_success (new_end_time : ℤ)
deriving DecidableEq, Repr

/-- Response of `api_reset_timer`. -/
inductive ResetResult where
  | reset_success
  | no_state_to_reset
deriving DecidableEq, Repr

def CompleteResult.is_break_started : CompleteResult → Bool
  | CompleteResult.break_started _ _ _ => true
  | _ => false

def CompleteResult.is_work_started : CompleteResult → Bool
  | CompleteResult.work_started _ _ _ => true
  | _ => false

def CompleteResult.is_too_early : CompleteResult → Bool
  | CompleteResult.too_early _ _ => true
  | _ => false

/-- `api_routes.api_start_timer`: validates the durations, computes the work
multiplier from the user's current streaks and today's focus, then creates or
overwrites the active-timer row (note: an overwrite leaves
`pause_start_time` untouched, a fresh row starts with it null). -/
def api_start_timer (work_minutes break_minutes : ℤ) (now_utc : ℤ)
    (s : ServerState) : StartResult × ServerState :=
  if work_minutes ≤ 0 ∨ break_minutes ≤ 0 then
    (StartResult.invalid_input, s)
  else
    let end_time_utc := now_utc + 60 * work_minutes
    let current_multiplier :=
      calculate_current_multiplier s.user work_minutes break_minutes
        (todays_focus s.sessions now_utc)
    let new_timer :=
      match s.timer with
      | some current_state =>
        { current_state with
          phase := "work"
          start_time := now_utc
          end_time := some end_time_utc
          work_duration_minutes := work_minutes
          break_duration_minutes := break_minutes
          current_multiplier := current_multiplier }
      | none =>
        { phase := "work"
          start_time := now_utc
          end_time := some end_time_utc
          work_duration_minutes := work_minutes
          break_duration_minutes := break_minutes
          current_multiplier := current_multiplier
          pause_start_time := none }
    (StartResult.timer_started s.user.total_points current_multiplier end_time_utc,
     { s with timer := some new_timer })

/-- `api_routes.api_complete_phase`: the phase-completion orchestrator.
Validates the request against the stored state (grace period of 2 seconds,
server phase trusted over the client-reported one), awards points with the
multiplier locked in at phase start, updates streaks and the ledger on work
completion, and transitions the timer (work -> break, break -> fresh work). -/
def api_complete_phase (phase_completed : String) (now_utc : ℤ)
    (points_per_minute : Option ℚ) (s : ServerState) :
    CompleteResult × ServerState :=
  match s.timer with
  | none => (CompleteResult.acknowledged_no_state s.user.total_points, s)
  | some server_state =>
    match server_state.end_time with
    | none =>
      (CompleteResult.inconsistent_state s.user.total_points, { s with timer := none })
    | some end_time =>
      if now_utc < end_time - 2 then
        (CompleteResult.too_early (end_time - now_utc) s.user.total_points, s)
      else
        let phase := if server_state.phase ≠ phase_completed then server_state.phase
                     else phase_completed
        if phase = "work" then
          let planned_work_duration := server_state.work_duration_minutes
          let final_multiplier := server_state.current_multiplier
          let points_earned_this_phase :=
            phase_points planned_work_duration points_per_minute final_multiplier
          let new_total_points := s.user.total_points + points_earned_this_phase
          let user1 := update_streaks s.user now_utc
          let user2 := { user1 with total_points := new_total_points }
          let log_entry : PomodoroSession :=
            { work_duration := planned_work_duration
              break_duration := server_state.break_duration_minutes
              points_earned := points_earned_this_phase
              timestamp := server_state.start_time }
          let break_end_time_utc := now_utc + 60 * server_state.break_duration_minutes
          let timer2 :=
            { server_state with
              phase := "break"
              start_time := now_utc
              end_time := some break_end_time_utc
              current_multiplier := final_multiplier }
          (CompleteResult.break_started new_total_points final_multiplier break_end_time_utc,
           { user := user2, timer := some timer2, sessions := s.sessions ++ [log_entry] })
        else if phase = "break" then
          let planned_break_duration := server_state.break_duration_minutes
          let inherited_multiplier := server_state.current_multiplier
          let points_earned_this_phase :=
            phase_points planned_break_duration points_per_minute inherited_multiplier
          let new_total_points := s.user.total_points + points_earned_this_phase
          let user2 := { s.user with total_points := new_total_points }
          let work_minutes := server_state.work_duration_minutes
          let next_multiplier :=
            calculate_current_multiplier user2 work_minutes
              server_state.break_duration_minutes (todays_focus s.sessions now_utc)
          let work_end_time_utc := now_utc + 60 * work_minutes
          let timer2 :=
            { server_state with
              phase := "work"
              start_time := now_utc
              end_time := some work_end_time_utc
              current_multiplier := next_multiplier }
          (CompleteResult.work_started new_total_points next_multiplier work_end_time_utc,
           { user := user2, timer := some timer2, sessions := s.sessions })
        else
          (CompleteResult.invalid_phase s.user.total_points, { s with timer := none })

/-- `api_routes.api_reset_timer`: deletes the active-timer row if present. -/
def api_reset_timer (s : ServerState) : ResetResult × ServerState :=
  match s.timer with
  | some _ => (ResetResult.reset_success, { s with timer := none })
  | none => (ResetResult.no_state_to_reset, s)

/-- `api_routes.api_pause_timer`: records "paused at now" on the existing
active-timer row; 404 when no timer exists. -/
def api_pause_timer (now_utc : ℤ) (s : ServerState) : PauseResult × ServerState :=
  match s.timer with
  | none => (PauseResult.no_active_state, s)
  | some active_state =>
    (PauseResult.pause_recorded,
     { s with timer := some { active_state with pause_start_time := some now_utc } })

/-- `api_routes.api_resume_timer`: recomputes the end time from the stored
pause marker (remaining time clamped to be non-negative), clears the marker;
tolerates a missing marker as a non-fatal no-op. -/
def api_resume_timer (now_utc : ℤ) (s : ServerState) : ResumeResult × ServerState :=
  match s.timer with
  | none => (ResumeResult.no_active_state, s)
  | some active_state =>
    match active_state.end_time with
    | none => (ResumeResult.inconsistent_state, { s with timer := none })
    | some original_end_time =>
      match active_state.pause_start_time with
      | none => (ResumeResult.resume_no_pause_found original_end_time, s)
      | some pause_start_time =>
        let remaining_duration :=
          if original_end_time - pause_start_time < 0 then 0
          else original_end_time - pause_start_time
        let new_end_time := now_utc + remaining_duration
        (ResumeResult.resume_success new_end_time,
         { s with timer := some ({ active_state with
             start_time := now_utc
             end_time := some new_end_time
             pause_start_time := none }) })

/-! ### Helper lemmas -/

/-- The phase-correction assignment of `api_complete_phase` (trust the stored
phase on mismatch) always yields the stored phase. -/
lemma ite_ne_self {α : Type} [DecidableEq α] (a b : α) :
    (if a ≠ b then a else b) = a := by
  split_ifs with h
  · rfl
  · exact (not_not.mp h).symm

/-- The non-negative clamp of the resume path, written as a `max`. -/
lemma clamp_eq_max (a : ℤ) : (if a < 0 then 0 else a) = max a 0 := by
  rw [max_def]
  split_ifs <;> omega

/-- Python's `round` of a non-negative value is non-negative. -/
lemma pyRound_nonneg (q : ℚ) (h : 0 ≤ q) : 0 ≤ pyRound q := by
  have hf : (0 : ℤ) ≤ ⌊q⌋ := Int.floor_nonneg.mpr h
  simp only [pyRound]
  split_ifs <;> omega

/-- Awarded phase points are never negative when the planned duration and the
stored multiplier are non-negative (an invalid `points_per_minute` yields 0). -/
lemma phase_points_nonneg (d : ℤ) (ppm : Option ℚ) (m : ℚ)
    (hd : 0 ≤ d) (hm : 0 ≤ m) : 0 ≤ phase_points d ppm m := by
  cases ppm with
  | none => simp [phase_points]
  | some p =>
    simp only [phase_points]
    split_ifs with hp
    · exact pyRound_nonneg _ (by positivity)
    · exact le_refl 0

/-- `update_streaks` never touches the point total. -/
lemma update_streaks_total_points (u : User) (now_utc : ℤ) :
    (update_streaks u now_utc).total_points = u.total_points := by
  obtain ⟨tp, cs, lst, ds, lado⟩ := u
  unfold update_streaks
  rcases lado with _ | lad <;> rcases lst with _ | ts <;>
    simp [apply_ite User.total_points, apply_ite User.last_session_timestamp,
      apply_ite User.consecutive_sessions, apply_ite User.daily_streak,
      apply_ite User.last_active_date]

/-! ### Concrete fixtures used by witnesses and counterexamples -/

/-- A brand-new user: zero points, no streaks, no history. -/
def user0 : User :=
  { total_points := 0
    consecutive_sessions := 0
    last_session_timestamp := none
    daily_streak := 0
    last_active_date := none }

/-- A running work-phase timer: 50/10 minutes, multiplier 1.3, not paused. -/
def timer_w : ActiveTimerState :=
  { phase := "work"
    start_time := 0
    end_time := some 3000
    work_duration_minutes := 50
    break_duration_minutes := 10
    current_multiplier := 13/10
    pause_start_time := none }

/-- A timer that was paused at t = 1200. -/
def timer_paused : ActiveTimerState :=
  { timer_w with pause_start_time := some 1200 }

/-- A corrupt timer row with no end time. -/
def timer_corrupt : ActiveTimerState :=
  { timer_w with end_time := none }

/-- State with the running work timer. -/
def state_w : ServerState :=
  { user := user0, timer := some timer_w, sessions := [] }

/-- State with the paused timer. -/
def state_paused : ServerState :=
  { user := user0, timer := some timer_paused, sessions := [] }

/-- State with no active timer. -/
def state_idle : ServerState :=
  { user := user0, timer := none, sessions := [] }

/-- State with the corrupt timer row. -/
def state_corrupt : ServerState :=
  { user := user0, timer := some timer_corrupt, sessions := [] }

/-! ### Claims -/

/-- C2: for every user with an active timer, `pause` records the
pause-started-at instant `now` on the stored `ActiveTimerState` record without
altering the end time and returns ok (`pause_recorded`); for every user with
no active timer, `pause` fails with NotFound (404, `no_active_state`). -/
theorem C2_pause_contract (s1 s2 : ServerState) (st : ActiveTimerState) (now_utc : ℤ)
    (h1 : s1.timer = some st) (h2 : s2.timer = none) :
    api_pause_timer now_utc s1
        = (PauseResult.pause_recorded,
           { s1 with timer := some ({ st with pause_start_time := some now_utc }) }) ∧
    ((api_pause_timer now_utc s1).2.timer.map ActiveTimerState.end_time) = some st.end_time ∧
    api_pause_timer now_utc s2 = (PauseResult.no_active_state, s2) := by
  refine ⟨?_, ?_, ?_⟩ <;> simp [api_pause_timer, h1, h2]

theorem C2_pause_contract_witness :
    state_w.timer = some timer_w ∧ state_idle.timer = none ∧
    (api_pause_timer 7 state_w
        = (PauseResult.pause_recorded,
           { state_w with timer := some ({ timer_w with pause_start_time := some 7 }) }) ∧
     ((api_pause_timer 7 state_w).2.timer.map ActiveTimerState.end_time) = some timer_w.end_time ∧
     api_pause_timer 7 state_idle = (PauseResult.no_active_state, state_idle)) :=
  ⟨rfl, rfl, C2_pause_contract state_w state_idle timer_w 7 rfl rfl⟩

/-- C3: `resume` on a paused timer sets remaining = end - pause_started_at
clamped to be non-negative, sets start = now and end = now + remaining, clears
the pause marker and returns the new end time; on a timer with no pause marker
it returns the stored end time unchanged as a non-fatal no-op
(`resume_no_pause_found`); with no timer it fails with NotFound; with a row
missing `end_time` it deletes the row and fails with Inconsistent. -/
theorem C3_resume_contract (s1 s2 s3 s4 : ServerState)
    (st1 st2 st4 : ActiveTimerState) (e1 e2 p1 now_utc : ℤ)
    (h1 : s1.timer = some st1) (h1e : st1.end_time = some e1)
    (h1p : st1.pause_start_time = some p1)
    (h2 : s2.timer = some st2) (h2e : st2.end_time = some e2)
    (h2p : st2.pause_start_time = none)
    (h3 : s3.timer = none)
    (h4 : s4.timer = some st4) (h4e : st4.end_time = none) :
    api_resume_timer now_utc s1
        = (ResumeResult.resume_success (now_utc + max (e1 - p1) 0),
           { s1 with timer := some ({ st1 with
               start_time := now_utc
               end_time := some (now_utc + max (e1 - p1) 0)
               pause_start_time := none }) }) ∧
    api_resume_timer now_utc s2 = (ResumeResult.resume_no_pause_found e2, s2) ∧
    api_resume_timer now_utc s3 = (ResumeResult.no_active_state, s3) ∧
    api_resume_timer now_utc s4 = (ResumeResult.inconsistent_state, { s4 with timer := none }) := by
  refine ⟨?_, ?_, ?_, ?_⟩ <;>
    simp [api_resume_timer, h1, h1e, h1p, h2, h2e, h2p, h3, h4, h4e] <;>
    (rw [max_def]; split_ifs <;> omega)

theorem C3_resume_contract_witness :
    state_paused.timer = some timer_paused ∧ timer_paused.end_time = some 3000 ∧
    timer_paused.pause_start_time = some 1200 ∧
    state_w.timer = some timer_w ∧ timer_w.end_time = some 3000 ∧
    timer_w.pause_start_time = none ∧
    state_idle.timer = none ∧
    state_corrupt.timer = some timer_corrupt ∧ timer_corrupt.end_time = none ∧
    (api_resume_timer 5000 state_paused
        = (ResumeResult.resume_success (5000 + max (3000 - 1200) 0),
           { state_paused with timer := some ({ timer_paused with
               start_time := 5000
               end_time := some (5000 + max (3000 - 1200) 0)
               pause_start_time := none }) }) ∧
     api_resume_timer 5000 state_w = (ResumeResult.resume_no_pause_found 3000, state_w) ∧
     api_resume_timer 5000 state_idle = (ResumeResult.no_active_state, state_idle) ∧
     api_resume_timer 5000 state_corrupt
        = (ResumeResult.inconsistent_state, { state_corrupt with timer := none })) :=
  ⟨rfl, rfl, rfl, rfl, rfl, rfl, rfl, rfl, rfl,
   C3_resume_contract state_paused state_w state_idle state_corrupt
     timer_paused timer_w timer_corrupt 3000 3000 1200 5000
     rfl rfl rfl rfl rfl rfl rfl rfl rfl⟩

/-- C10 (implicit): `pause` has no not-already-paused precondition: a second
pause also answers `pause_recorded` and overwrites the stored marker with the
newer instant, so a later resume measures the remaining time from the latest
pause only, discarding the time between the two pauses. -/
theorem C10_double_pause (s : ServerState) (st : ActiveTimerState) (e t1 t2 t3 : ℤ)
    (h : s.timer = some st) (he : st.end_time = some e) :
    (api_pause_timer t1 s).1 = PauseResult.pause_recorded ∧
    (api_pause_timer t2 (api_pause_timer t1 s).2).1 = PauseResult.pause_recorded ∧
    (api_pause_timer t2 (api_pause_timer t1 s).2).2.timer
        = some ({ st with pause_start_time := some t2 }) ∧
    api_resume_timer t3 (api_pause_timer t2 (api_pause_timer t1 s).2).2
        = (ResumeResult.resume_success (t3 + max (e - t2) 0),
           { s with timer := some ({ st with
               start_time := t3
               end_time := some (t3 + max (e - t2) 0)
               pause_start_time := none }) }) := by
  refine ⟨?_, ?_, ?_, ?_⟩ <;>
    simp [api_pause_timer, api_resume_timer, h, he] <;>
    (rw [max_def]; split_ifs <;> omega)

theorem C10_double_pause_witness :
    state_w.timer = some timer_w ∧ timer_w.end_time = some 3000 ∧
    ((api_pause_timer 100 state_w).1 = PauseResult.pause_recorded ∧
     (api_pause_timer 200 (api_pause_timer 100 state_w).2).1 = PauseResult.pause_recorded ∧
     (api_pause_timer 200 (api_pause_timer 100 state_w).2).2.timer
        = some ({ timer_w with pause_start_time := some 200 }) ∧
     api_resume_timer 900 (api_pause_timer 200 (api_pause_timer 100 state_w).2).2
        = (ResumeResult.resume_success (900 + max (3000 - 200) 0),
           { state_w with timer := some ({ timer_w with
               start_time := 900
               end_time := some (900 + max (3000 - 200) 0)
               pause_start_time := none }) })) :=
  ⟨rfl, rfl, C10_double_pause state_w timer_w 3000 100 200 900 rfl rfl⟩

/-- C6: a `complete_phase` request with an existing timer state arriving
before `end_time - 2s` is rejected with an error carrying the remaining
seconds and the current `total_points`, with no stored state mutated; a
request arriving at or after `end_time - 2s` passes the grace check (it is
never answered with the too-early rejection). -/
theorem C6_grace_period (s : ServerState) (st : ActiveTimerState) (e : ℤ)
    (pc : String) (ppm : Option ℚ) (now1 now2 : ℤ)
    (hst : s.timer = some st) (he : st.end_time = some e)
    (h1 : now1 < e - 2) (h2 : e - 2 ≤ now2) :
    api_complete_phase pc now1 ppm s
        = (CompleteResult.too_early (e - now1) s.user.total_points, s) ∧
    (api_complete_phase pc now2 ppm s).1.is_too_early = false := by
  constructor
  · simp [api_complete_phase, hst, he, h1]
  · simp only [api_complete_phase, hst, he]
    rw [if_neg (not_lt.mpr h2)]
    split_ifs <;> simp [CompleteResult.is_too_early]

theorem C6_grace_period_witness :
    state_w.timer = some timer_w ∧ timer_w.end_time = some 3000 ∧
    (2997 : ℤ) < 3000 - 2 ∧ (3000 : ℤ) - 2 ≤ 2999 ∧
    (api_complete_phase "work" 2997 (some 10) state_w
        = (CompleteResult.too_early (3000 - 2997) state_w.user.total_points, state_w) ∧
     (api_complete_phase "work" 2999 (some 10) state_w).1.is_too_early = false) :=
  ⟨rfl, rfl, by decide, by decide,
   C6_grace_period state_w timer_w 3000 "work" (some 10) 2997 2999 rfl rfl
     (by decide) (by decide)⟩

/-- C5: completing a work phase transitions the timer to the break phase with
the multiplier unchanged (inherited from the work phase), and completing that
subsequent break awards `round(planned_break_minutes * points_per_minute *
inherited_multiplier)` points rather than using a multiplier of 1.0. -/
theorem C5_break_inherits_multiplier (s : ServerState) (st : ActiveTimerState)
    (e now1 now2 : ℤ) (p : ℚ)
    (hst : s.timer = some st) (hph : st.phase = "work") (he : st.end_time = some e)
    (hg1 : e - 2 ≤ now1)
    (hg2 : now1 + 60 * st.break_duration_minutes - 2 ≤ now2)
    (hp : 0 ≤ p) :
    (api_complete_phase "work" now1 (some p) s).2.timer
        = some ({ st with
            phase := "break"
            start_time := now1
            end_time := some (now1 + 60 * st.break_duration_minutes) }) ∧
    (api_complete_phase "break" now2 (some p)
        (api_complete_phase "work" now1 (some p) s).2).2.user.total_points
      = (api_complete_phase "work" now1 (some p) s).2.user.total_points
        + pyRound ((st.break_duration_minutes : ℚ) * p * st.current_multiplier) := by
  have hwork :
      (api_complete_phase "work" now1 (some p) s).2
        = { user := { update_streaks s.user now1 with
              total_points := s.user.total_points
                + phase_points st.work_duration_minutes (some p) st.current_multiplier }
            timer := some ({ st with
              phase := "break"
              start_time := now1
              end_time := some (now1 + 60 * st.break_duration_minutes) })
            sessions := s.sessions ++
              [{ work_duration := st.work_duration_minutes
                 break_duration := st.break_duration_minutes
                 points_earned := phase_points st.work_duration_minutes (some p) st.current_multiplier
                 timestamp := st.start_time }] } := by
    simp [api_complete_phase, hst, he, hph, not_lt.mpr hg1]
  refine ⟨by rw [hwork], ?_⟩
  rw [hwork]
  simp [api_complete_phase, not_lt.mpr hg2, phase_points, hp]

theorem C5_break_inherits_multiplier_witness :
    state_w.timer = some timer_w ∧ timer_w.phase = "work" ∧
    timer_w.end_time = some 3000 ∧
    (3000 : ℤ) - 2 ≤ 3000 ∧ (3000 : ℤ) + 60 * timer_w.break_duration_minutes - 2 ≤ 3600 ∧
    (0 : ℚ) ≤ 10 ∧
    ((api_complete_phase "work" 3000 (some 10) state_w).2.timer
        = some ({ timer_w with
            phase := "break"
            start_time := 3000
            end_time := some (3000 + 60 * timer_w.break_duration_minutes) }) ∧
     (api_complete_phase "break" 3600 (some 10)
          (api_complete_phase "work" 3000 (some 10) state_w).2).2.user.total_points
        = (api_complete_phase "work" 3000 (some 10) state_w).2.user.total_points
          + pyRound ((timer_w.break_duration_minutes : ℚ) * 10 * timer_w.current_multiplier)) ∧
    pyRound ((timer_w.break_duration_minutes : ℚ) * 10 * timer_w.current_multiplier) = 130 :=
  ⟨rfl, rfl, rfl, by decide, by decide, by norm_num,
   C5_break_inherits_multiplier state_w timer_w 3000 3000 3600 10
     rfl rfl rfl (by decide) (by decide) (by norm_num),
   by norm_num [timer_w, pyRound]⟩

/-- Spec-side restatement of the daily-streak rule, for comparison with the
code's `update_streaks` (refinement-style): unchanged when already counted
today; incremented when the stored date is exactly one day before today; reset
to 1 when there is no stored date or the gap is more than one day; and — the
amendment forced by the code — left unchanged when the stored date lies in
the future (a negative gap). -/
def daily_streak_expected (user : User) (now_utc : ℤ) : ℤ :=
  let today := dateOf now_utc
  match user.last_active_date with
  | none => 1
  | some last_active =>
    if last_active = today then user.daily_streak
    else if today - last_active = 1 then user.daily_streak + 1
    else if 1 < today - last_active then 1
    else user.daily_streak

/-- C4 counterexample: the claim says that whenever `last_active_date` is
neither today nor exactly one day before today, the daily streak is reset
to 1.  For a user whose stored date lies one day in the future (day 11, with
now in day 10), the code leaves the streak at 5 instead of resetting it. -/
theorem C4_counterexample :
    (update_streaks
      { total_points := 0
        consecutive_sessions := 0
        last_session_timestamp := none
        daily_streak := 5
        last_active_date := some 11 } 864000).daily_streak = 5 ∧
    ¬ ((update_streaks
      { total_points := 0
        consecutive_sessions := 0
        last_session_timestamp := none
        daily_streak := 5
        last_active_date := some 11 } 864000).daily_streak = 1) := by
  constructor <;>
    simp [update_streaks, dateOf, show Int.fdiv 864000 86400 = 10 from by decide]

/-- C4 (amended): on work-phase completion the daily streak is unchanged if
`last_active_date` is today, incremented by 1 if it is exactly one day before
today, reset to 1 if there is no stored date or the gap exceeds one day, and
left unchanged if the stored date lies in the future; `last_active_date`
always ends up equal to `date(now)`. -/
theorem C4_daily_streak (user : User) (now_utc : ℤ) :
    (update_streaks user now_utc).daily_streak = daily_streak_expected user now_utc ∧
    (update_streaks user now_utc).last_active_date = some (dateOf now_utc) := by
  obtain ⟨tp, cs, lst, ds, lado⟩ := user
  unfold update_streaks daily_streak_expected
  rcases lado with _ | lad <;> rcases lst with _ | ts <;>
    simp [apply_ite User.daily_streak, apply_ite User.last_active_date,
      apply_ite User.last_session_timestamp]

/-- Summing rule bonuses over an optional singleton of the active-rule list. -/
lemma sum_map_ite_single (c : Prop) [Decidable c] (f : String → ℚ) (x : String) :
    ((if c then [x] else []).map f).sum = if c then f x else 0 := by
  split <;> simp

/-- C7: `calculate_current_multiplier` equals 1.0 plus the sum of the bonuses
of exactly the rules reported by `get_active_multiplier_rules`, rounded to two
decimal places (the synthetic `base` id carries bonus 0, so including it in
the sum is the same as excluding it), and the reported set always contains
`base`: the two functions are in lock-step. -/
theorem C7_multiplier_lockstep (user : User) (w b f : ℤ) :
    calculate_current_multiplier user w b f
      = pyRound2 (1 + ((get_active_multiplier_rules user w b f).map rule_bonus).sum) ∧
    rule_bonus "base" = 0 ∧
    "base" ∈ get_active_multiplier_rules user w b f := by
  refine ⟨?_, (show rule_bonus "base" = 0.0 from rfl).trans (by norm_num), ?_⟩
  · unfold calculate_current_multiplier get_active_multiplier_rules
    simp only [List.map_append, List.sum_append, sum_map_ite_single,
      List.map_cons, List.map_nil, List.sum_cons, List.sum_nil,
      show rule_bonus "base" = 0.0 from rfl,
      show rule_bonus "focus25" = 0.1 from rfl,
      show rule_bonus "focus45" = 0.2 from rfl,
      show rule_bonus "focus60" = 0.3 from rfl,
      show rule_bonus "focus90" = 0.5 from rfl,
      show rule_bonus "balancedBreak" = 0.1 from rfl,
      show rule_bonus "consecutive3" = 0.1 from rfl,
      show rule_bonus "consecutive5" = 0.2 from rfl,
      show rule_bonus "consecutive10" = 0.3 from rfl,
      show rule_bonus "consecutive20" = 0.5 from rfl,
      show rule_bonus "daily3" = 0.1 from rfl,
      show rule_bonus "daily7" = 0.2 from rfl,
      show rule_bonus "daily14" = 0.3 from rfl,
      show rule_bonus "daily30" = 0.5 from rfl,
      show rule_bonus "dailyFocus120" = 0.1 from rfl]
    norm_num
  · unfold get_active_multiplier_rules
    simp

/-- C9: the user's total points are monotonically non-decreasing: no timer
operation (start, pause, resume, reset, complete_phase) ever decreases
`total_points` (for any reachable state, whose timer rows carry non-negative
durations and multiplier); awarded phase points are a non-negative integer;
an invalid `points_per_minute` configuration (non-numeric, or negative) is
treated as 0 points while the completion request still succeeds. -/
theorem C9_points_monotone (s : ServerState)
    (hwf : ∀ st, s.timer = some st →
      0 ≤ st.work_duration_minutes ∧ 0 ≤ st.break_duration_minutes ∧
      0 ≤ st.current_multiplier)
    (w b now_utc : ℤ) (pc : String) (ppm : Option ℚ)
    (d : ℤ) (m : ℚ) (q : ℚ) (hq : q < 0) (hd : 0 ≤ d) (hm : 0 ≤ m)
    (s1 : ServerState) (st1 : ActiveTimerState) (e1 now1 : ℤ)
    (h1 : s1.timer = some st1) (hph1 : st1.phase = "work")
    (he1 : st1.end_time = some e1) (hg1 : e1 - 2 ≤ now1) :
    s.user.total_points ≤ ((api_start_timer w b now_utc s).2).user.total_points ∧
    s.user.total_points ≤ ((api_pause_timer now_utc s).2).user.total_points ∧
    s.user.total_points ≤ ((api_resume_timer now_utc s).2).user.total_points ∧
    s.user.total_points ≤ ((api_reset_timer s).2).user.total_points ∧
    s.user.total_points ≤ ((api_complete_phase pc now_utc ppm s).2).user.total_points ∧
    0 ≤ phase_points d ppm m ∧
    phase_points d none m = 0 ∧
    phase_points d (some q) m = 0 ∧
    (api_complete_phase "work" now1 none s1).1
      = CompleteResult.break_started s1.user.total_points st1.current_multiplier
          (now1 + 60 * st1.break_duration_minutes) := by
  refine ⟨?_, ?_, ?_, ?_, ?_, ?_, ?_, ?_, ?_⟩
  · unfold api_start_timer
    split_ifs <;> simp
  · unfold api_pause_timer
    rcases hst : s.timer with _ | st <;> simp
  · unfold api_resume_timer
    rcases hst : s.timer with _ | st
    · simp [hst]
    · rcases he : st.end_time with _ | e
      · simp [hst, he]
      · rcases hp : st.pause_start_time with _ | p <;> simp [hst, he, hp]
  · unfold api_reset_timer
    rcases hst : s.timer with _ | st <;> simp
  · rcases hst : s.timer with _ | st
    · simp [api_complete_phase, hst]
    · rcases he : st.end_time with _ | e
      · simp [api_complete_phase, hst, he]
      · by_cases hg : now_utc < e - 2
        · simp [api_complete_phase, hst, he, hg]
        · obtain ⟨hw, hb, hm2⟩ := hwf st hst
          have hpw := phase_points_nonneg st.work_duration_minutes ppm st.current_multiplier hw hm2
          have hpb := phase_points_nonneg st.break_duration_minutes ppm st.current_multiplier hb hm2
          simp only [api_complete_phase, hst, he, if_neg hg]
          split_ifs <;> simp [update_streaks_total_points] <;> omega
  · exact phase_points_nonneg d ppm m hd hm
  · simp [phase_points]
  · simp [phase_points, not_le.mpr hq]
  · simp [api_complete_phase, h1, he1, hph1, not_lt.mpr hg1, phase_points]

theorem C9_points_monotone_witness :
    state_w.user.total_points ≤ ((api_start_timer 25 5 0 state_w).2).user.total_points ∧
    state_w.user.total_points ≤ ((api_pause_timer 0 state_w).2).user.total_points ∧
    state_w.user.total_points ≤ ((api_resume_timer 0 state_w).2).user.total_points ∧
    state_w.user.total_points ≤ ((api_reset_timer state_w).2).user.total_points ∧
    state_w.user.total_points ≤ ((api_complete_phase "work" 0 (some 10) state_w).2).user.total_points ∧
    0 ≤ phase_points 7 (some 10) 2 ∧
    phase_points 7 none 2 = 0 ∧
    phase_points 7 (some (-3)) 2 = 0 ∧
    (api_complete_phase "work" 3000 none state_w).1
      = CompleteResult.break_started state_w.user.total_points timer_w.current_multiplier
          (3000 + 60 * timer_w.break_duration_minutes) :=
  C9_points_monotone state_w
    (by
      intro st h
      injection h with h2
      subst h2
      exact ⟨by norm_num [timer_w], by norm_num [timer_w], by norm_num [timer_w]⟩)
    25 5 0 "work" (some 10) 7 2 (-3) (by norm_num) (by norm_num) (by norm_num)
    state_w timer_w 3000 3000 rfl rfl rfl (by decide)

/-- C8: within a request, a successful work-phase completion applies the point
increment, appends exactly one `PomodoroSession` ledger row and performs the
break transition together, in the single state its commit persists; exactly
one ledger row is created per completed work phase (no rows on any other
path), and the user row is mutated only when a phase completion succeeded —
a completed work phase never awards points and transitions while creating
zero ledger rows. -/
theorem C8_atomic_completion (pc : String) (now_utc : ℤ) (ppm : Option ℚ) (s : ServerState)
    (s1 : ServerState) (st1 : ActiveTimerState) (e1 now1 : ℤ)
    (h1 : s1.timer = some st1) (hph1 : st1.phase = "work")
    (he1 : st1.end_time = some e1) (hg1 : e1 - 2 ≤ now1) :
    ((api_complete_phase pc now_utc ppm s).2.sessions.length
        = s.sessions.length
          + (if ((api_complete_phase pc now_utc ppm s).1).is_break_started then 1 else 0)) ∧
    ((api_complete_phase pc now_utc ppm s).2.user = s.user
        ∨ ((api_complete_phase pc now_utc ppm s).1).is_break_started = true
        ∨ ((api_complete_phase pc now_utc ppm s).1).is_work_started = true) ∧
    ((api_complete_phase "work" now1 ppm s1).1
        = CompleteResult.break_started
            (s1.user.total_points + phase_points st1.work_duration_minutes ppm st1.current_multiplier)
            st1.current_multiplier (now1 + 60 * st1.break_duration_minutes)) ∧
    ((api_complete_phase "work" now1 ppm s1).2.sessions
        = s1.sessions ++
          [{ work_duration := st1.work_duration_minutes
             break_duration := st1.break_duration_minutes
             points_earned := phase_points st1.work_duration_minutes ppm st1.current_multiplier
             timestamp := st1.start_time }]) ∧
    ((api_complete_phase "work" now1 ppm s1).2.user.total_points
        = s1.user.total_points + phase_points st1.work_duration_minutes ppm st1.current_multiplier) ∧
    ((api_complete_phase "work" now1 ppm s1).2.timer
        = some ({ st1 with
            phase := "break"
            start_time := now1
            end_time := some (now1 + 60 * st1.break_duration_minutes) })) := by
  have hmain :
      (api_complete_phase "work" now1 ppm s1).1
        = CompleteResult.break_started
            (s1.user.total_points + phase_points st1.work_duration_minutes ppm st1.current_multiplier)
            st1.current_multiplier (now1 + 60 * st1.break_duration_minutes) ∧
      (api_complete_phase "work" now1 ppm s1).2.sessions
        = s1.sessions ++
          [{ work_duration := st1.work_duration_minutes
             break_duration := st1.break_duration_minutes
             points_earned := phase_points st1.work_duration_minutes ppm st1.current_multiplier
             timestamp := st1.start_time }] ∧
      (api_complete_phase "work" now1 ppm s1).2.user.total_points
        = s1.user.total_points + phase_points st1.work_duration_minutes ppm st1.current_multiplier ∧
      (api_complete_phase "work" now1 ppm s1).2.timer
        = some ({ st1 with
            phase := "break"
            start_time := now1
            end_time := some (now1 + 60 * st1.break_duration_minutes) }) := by
    refine ⟨?_, ?_, ?_, ?_⟩ <;>
      simp [api_complete_phase, h1, he1, hph1, not_lt.mpr hg1, update_streaks_total_points]
  refine ⟨?_, ?_, hmain.1, hmain.2.1, hmain.2.2.1, hmain.2.2.2⟩
  · rcases hst : s.timer with _ | st
    · simp [api_complete_phase, hst, CompleteResult.is_break_started]
    · rcases he : st.end_time with _ | e
      · simp [api_complete_phase, hst, he, CompleteResult.is_break_started]
      · by_cases hg : now_utc < e - 2
        · simp [api_complete_phase, hst, he, hg, CompleteResult.is_break_started]
        · simp only [api_complete_phase, hst, he, if_neg hg]
          split_ifs <;> simp_all [CompleteResult.is_break_started]
  · rcases hst : s.timer with _ | st
    · simp [api_complete_phase, hst]
    · rcases he : st.end_time with _ | e
      · simp [api_complete_phase, hst, he]
      · by_cases hg : now_utc < e - 2
        · simp [api_complete_phase, hst, he, hg]
        · simp only [api_complete_phase, hst, he, if_neg hg]
          split_ifs <;>
            simp_all [CompleteResult.is_break_started, CompleteResult.is_work_started]

theorem C8_atomic_completion_witness :
    ((api_complete_phase "work" 0 (some 10) state_idle).2.sessions.length
        = state_idle.sessions.length
          + (if ((api_complete_phase "work" 0 (some 10) state_idle).1).is_break_started then 1 else 0)) ∧
    ((api_complete_phase "work" 0 (some 10) state_idle).2.user = state_idle.user
        ∨ ((api_complete_phase "work" 0 (some 10) state_idle).1).is_break_started = true
        ∨ ((api_complete_phase "work" 0 (some 10) state_idle).1).is_work_started = true) ∧
    ((api_complete_phase "work" 3000 (some 10) state_w).1
        = CompleteResult.break_started
            (state_w.user.total_points + phase_points timer_w.work_duration_minutes (some 10) timer_w.current_multiplier)
            timer_w.current_multiplier (3000 + 60 * timer_w.break_duration_minutes)) ∧
    ((api_complete_phase "work" 3000 (some 10) state_w).2.sessions
        = state_w.sessions ++
          [{ work_duration := timer_w.work_duration_minutes
             break_duration := timer_w.break_duration_minutes
             points_earned := phase_points timer_w.work_duration_minutes (some 10) timer_w.current_multiplier
             timestamp := timer_w.start_time }]) ∧
    ((api_complete_phase "work" 3000 (some 10) state_w).2.user.total_points
        = state_w.user.total_points
          + phase_points timer_w.work_duration_minutes (some 10) timer_w.current_multiplier) ∧
    ((api_complete_phase "work" 3000 (some 10) state_w).2.timer
        = some ({ timer_w with
            phase := "break"
            start_time := 3000
            end_time := some (3000 + 60 * timer_w.break_duration_minutes) })) :=
  C8_atomic_completion "work" 0 (some 10) state_idle state_w timer_w 3000 3000
    rfl rfl rfl (by decide)

/-- Fresh-install state for the end-to-end scenario: a brand-new user, no
timer, empty ledger. -/
def state_new : ServerState :=
  { user := user0, timer := none, sessions := [] }

/-- C1 counterexample: the claimed end-to-end numbers are wrong.  A new user
(all streaks 0) starting a 30-minute work / 5-minute break timer gets
multiplier 1.2, not 1.1: besides focus25, the balancedBreak rule fires too,
since 5/30 is at most the 0.2 break/work ratio.  Completing the work phase
then awards `round(30*10*1.2) = 360` points, not 330. -/
theorem C1_counterexample :
    (api_start_timer 30 5 0 state_new).1 = StartResult.timer_started 0 (12/10) 1800 ∧
    ¬ ((api_start_timer 30 5 0 state_new).1 = StartResult.timer_started 0 (11/10) 1800) ∧
    (api_complete_phase "work" 1800 (some 10) (api_start_timer 30 5 0 state_new).2).2.user.total_points = 360 ∧
    ¬ ((api_complete_phase "work" 1800 (some 10)
        (api_start_timer 30 5 0 state_new).2).2.user.total_points = 330) := by
  have hm : calculate_current_multiplier
      { total_points := 0, consecutive_sessions := 0, last_session_timestamp := none,
        daily_streak := 0, last_active_date := none } 30 5 0 = 12/10 := by
    norm_num [calculate_current_multiplier, pyRound2, pyRound]
  have hp : phase_points 30 (some 10) (12/10) = 360 := by
    norm_num [phase_points, pyRound]
  have hu : update_streaks
      { total_points := 0, consecutive_sessions := 0, last_session_timestamp := none,
        daily_streak := 0, last_active_date := none } 1800 =
      { total_points := 0
        consecutive_sessions := 1
        last_session_timestamp := some 1800
        daily_streak := 1
        last_active_date := some 0 } := by
    simp [update_streaks, dateOf, show Int.fdiv 1800 86400 = 0 from by decide]
  refine ⟨?_, ?_, ?_, ?_⟩ <;>
    simp [api_start_timer, api_complete_phase, state_new, todays_focus, hm, hp, hu, user0] <;>
    norm_num

/-- C1 (amended): a new user with all streaks 0 who starts a 30-minute work /
5-minute break timer gets multiplier 1.2 (focus25 and balancedBreak both
apply); completing the work phase after the grace window awards
`round(30*10*1.2) = 360` points, sets `total_points` to 360, records one
`PomodoroSession` row with `work_duration = 30` and `points_earned = 360`, and
transitions the active timer to a break phase ending 5 minutes later with
multiplier still 1.2. -/
theorem C1_end_to_end :
    api_start_timer 30 5 0 state_new
      = (StartResult.timer_started 0 (12/10) 1800,
         { state_new with timer := some ({ phase := "work"
                                           start_time := 0
                                           end_time := some 1800
                                           work_duration_minutes := 30
                                           break_duration_minutes := 5
                                           current_multiplier := 12/10
                                           pause_start_time := none }) }) ∧
    api_complete_phase "work" 1800 (some 10) (api_start_timer 30 5 0 state_new).2
      = (CompleteResult.break_started 360 (12/10) (1800 + 60 * 5),
         { user := { total_points := 360
                     consecutive_sessions := 1
                     last_session_timestamp := some 1800
                     daily_streak := 1
                     last_active_date := some 0 }
           timer := some ({ phase := "break"
                            start_time := 1800
                            end_time := some (1800 + 60 * 5)
                            work_duration_minutes := 30
                            break_duration_minutes := 5
                            current_multiplier := 12/10
                            pause_start_time := none })
           sessions := [{ work_duration := 30
                          break_duration := 5
                          points_earned := 360
                          timestamp := 0 }] }) := by
  have hm : calculate_current_multiplier
      { total_points := 0, consecutive_sessions := 0, last_session_timestamp := none,
        daily_streak := 0, last_active_date := none } 30 5 0 = 12/10 := by
    norm_num [calculate_current_multiplier, pyRound2, pyRound]
  have hp : phase_points 30 (some 10) (12/10) = 360 := by
    norm_num [phase_points, pyRound]
  have hu : update_streaks
      { total_points := 0, consecutive_sessions := 0, last_session_timestamp := none,
        daily_streak := 0, last_active_date := none } 1800 =
      { total_points := 0
        consecutive_sessions := 1
        last_session_timestamp := some 1800
        daily_streak := 1
        last_active_date := some 0 } := by
    simp [update_streaks, dateOf, show Int.fdiv 1800 86400 = 0 from by decide]
  constructor <;>
    simp [api_start_timer, api_complete_phase, state_new, todays_focus, hm, hp, hu, user0]

end Pomodoro
